import Mathlib

/-
Verification of the bus-lane traffic simulation engine
(src/simulation/traffic_simulation.py and its supporting modules)
against its natural-language specification.

The embedding below translates the engine's data model and per-step
protocol into Lean. Machine floats are modelled as rationals; Python
exceptions as Except values; the random draws consumed by the engine
(Poisson arrival counts, Bernoulli category/diversion draws, uniform
lane/diversion-position choices) are passed in explicitly as data, with
their distributional constraints (e.g. the support of a Poisson draw)
stated as hypotheses where a claim needs them.
-/

namespace BusLane

/-! ## Constants (src/simulation/constants.py) -/

def JAM_THRESHOLD_DISTANCE : ℚ := 50/1000

def DETECTION_DISTANCE : ℚ := 500/1000

def BASE_VEHICLE_SPEED : ℚ := 50

def SLOW_TRAFFIC_THRESHOLD : ℚ := 10

def TRAFFIC_LIGHT_STOPPING_DISTANCE : ℚ := 1/10

def MIN_DENSITY_FACTOR : ℚ := 1/10

def DENSITY_REDUCTION_RATE : ℚ := 15/100

def SECONDS_PER_HOUR : ℚ := 3600

/-- Modelled from the spec: `CAR_TOTAL_SPACE` is imported by
traffic_simulation.py from constants.py but is absent from the
constants module in src/.  Per spec section 3 a footprint is vehicle
length plus minimum following gap; the value matches the module's
`VEHICLE_TOTAL_SPACE` (4.5 m + 0.5 m = 0.005 km). -/
def CAR_TOTAL_SPACE : ℚ := 5/1000

/-- Modelled from the spec: `BUS_TOTAL_SPACE` is imported by
traffic_simulation.py from constants.py but is absent from the
constants module in src/.  The spec only requires that a
priority-category vehicle occupies more linear space than a regular
one; we take 0.015 km (a 12 m bus plus gap).  No claim settled below
depends on the exact value, only on `0 < CAR_TOTAL_SPACE < BUS_TOTAL_SPACE`. -/
def BUS_TOTAL_SPACE : ℚ := 15/1000

/-! ## Entity model (vehicle.py, traffic_light.py, simulation_parameters.py,
infrastructure_config.py) -/

inductive VehicleType
  | regular
  | privileged
deriving DecidableEq

/-- Vehicle dataclass (src/simulation/vehicle.py). -/
structure Vehicle where
  id : ℕ
  vehicle_type : VehicleType
  entry_time : ℚ
  current_position : ℚ
  speed : ℚ
  lane : ℤ
  will_turn : Bool
  turn_position : Option ℚ
  waiting_time : ℚ
  travel_time : ℚ
deriving DecidableEq

inductive Phase
  | green
  | red
deriving DecidableEq

/-- TrafficLight dataclass (src/simulation/traffic_light.py). -/
structure TrafficLight where
  position : ℚ
  cycle_duration : ℚ
  green_duration : ℚ
  current_phase : Phase
  phase_start_time : ℚ
deriving DecidableEq

/-- The fields of SimulationParameters
(src/simulation/simulation_parameters.py) that the engine code under
verification reads.  The sampling-range fields whose draws are passed
in explicitly as data (turning percentage, privileged percentage,
side-road positions) are omitted: only the outcome of each draw enters
the engine's control flow. -/
structure SimulationParameters where
  traffic_intensity_range : ℚ × ℚ
  road_length : ℚ
  lane_capacity : ℕ
  traffic_light_cycle : ℚ
  simulation_duration : ℚ
  time_step : ℚ
deriving DecidableEq

/-- InfrastructureConfig (src/simulation/infrastructure_config.py),
restricted to the fields read by get_infrastructure_parameters. -/
structure InfrastructureConfig where
  num_lanes : ℕ
  has_bus_lane : Bool
  traffic_light_positions : List ℚ
  traffic_light_green_ratio : ℚ
  cycle_duration : Option ℚ
deriving DecidableEq

/-- The mutable state of a TrafficSimulation instance
(src/simulation/traffic_simulation.py __init__ / setup_infrastructure).
The telemetry lists mirror simulation_data; the per-vehicle event log
(`vehicle_details`) and `light_states` are pure recording with no
back-influence on the engine and are not needed by any claim, so they
are omitted from the state. -/
structure SimState where
  num_lanes : ℕ
  has_bus_lane : Bool
  params : SimulationParameters
  current_time : ℚ
  vehicles : List Vehicle
  completed_vehicles : List Vehicle
  vehicle_queue : List Vehicle
  traffic_lights : List TrafficLight
  next_vehicle_id : ℕ
  timesteps : List ℚ
  vehicles_in_motion : List ℕ
  average_speeds : List ℚ
  jam_lengths : List ℚ
  bus_lane_utilization : List ℕ
  vehicles_in_queue : List ℕ
deriving DecidableEq

/-! ## Construction (TrafficSimulation.__init__ and setup_infrastructure) -/

/-- setup_infrastructure: one TrafficLight per configured position, all
starting green at phase_start_time 0, with green duration
cycle × green_ratio. -/
def setupLights (actual_cycle green_ratio : ℚ) (positions : List ℚ) : List TrafficLight :=
  positions.map fun pos =>
    { position := pos
      cycle_duration := actual_cycle
      green_duration := actual_cycle * green_ratio
      current_phase := Phase.green
      phase_start_time := 0 }

/-- TrafficSimulation.__init__ with an explicit InfrastructureConfig:
empty collections, time 0, next_vehicle_id 1, lights from
setup_infrastructure (cycle override falling back to
params.traffic_light_cycle). -/
def mkSimulation (params : SimulationParameters) (cfg : InfrastructureConfig) : SimState :=
  let actual_cycle := cfg.cycle_duration.getD params.traffic_light_cycle
  { num_lanes := cfg.num_lanes
    has_bus_lane := cfg.has_bus_lane
    params := params
    current_time := 0
    vehicles := []
    completed_vehicles := []
    vehicle_queue := []
    traffic_lights := setupLights actual_cycle cfg.traffic_light_green_ratio cfg.traffic_light_positions
    next_vehicle_id := 1
    timesteps := []
    vehicles_in_motion := []
    average_speeds := []
    jam_lengths := []
    bus_lane_utilization := []
    vehicles_in_queue := [] }

/-! ## Footprints and capacity -/

/-- TrafficSimulation.get_vehicle_space. -/
def get_vehicle_space (v : Vehicle) : ℚ :=
  if v.vehicle_type = VehicleType.privileged then BUS_TOTAL_SPACE else CAR_TOTAL_SPACE

/-- Python int() truncates toward zero. -/
def pyTrunc (q : ℚ) : ℤ :=
  if 0 ≤ q then ⌊q⌋ else -⌊-q⌋

/-- TrafficSimulation.calculate_bus_lane_capacity:
int(road_length / BUS_TOTAL_SPACE), at least 1, and 0 when there is no
bus lane. -/
def calculate_bus_lane_capacity (s : SimState) : ℕ :=
  if s.has_bus_lane then
    max 1 (pyTrunc (s.params.road_length / BUS_TOTAL_SPACE)).toNat
  else 0

/-! ## Traffic lights (TrafficSimulation.update_traffic_lights) -/

/-- One light's transition inside update_traffic_lights: flip
green→red once the elapsed phase time reaches green_duration, and
red→green once it reaches cycle_duration − green_duration, resetting
phase_start_time to the current time on each flip. -/
def updateLight (t : ℚ) (l : TrafficLight) : TrafficLight :=
  let time_in_phase := t - l.phase_start_time
  if l.current_phase = Phase.green ∧ l.green_duration ≤ time_in_phase then
    { l with current_phase := Phase.red, phase_start_time := t }
  else if l.current_phase = Phase.red ∧ l.cycle_duration - l.green_duration ≤ time_in_phase then
    { l with current_phase := Phase.green, phase_start_time := t }
  else l

/-- TrafficSimulation.update_traffic_lights. -/
def update_traffic_lights (s : SimState) : SimState :=
  { s with traffic_lights := s.traffic_lights.map (updateLight s.current_time) }

/-! ## Speed model (TrafficSimulation.calculate_vehicle_speed) -/

/-- The early-return loop: the vehicle is forced to speed 0 when some
red light lies strictly ahead within the stopping distance. -/
def stoppedByRedLight (lights : List TrafficLight) (v : Vehicle) : Bool :=
  lights.any fun light =>
    decide (0 < light.position - v.current_position) &&
    decide (light.position - v.current_position < TRAFFIC_LIGHT_STOPPING_DISTANCE) &&
    decide (light.current_phase = Phase.red)

/-- The vehicles_ahead list comprehension: same lane, strictly ahead,
within the detection distance, different id. -/
def vehiclesAhead (vehicles : List Vehicle) (v : Vehicle) : List Vehicle :=
  vehicles.filter fun o =>
    decide (o.lane = v.lane) &&
    decide (v.current_position < o.current_position) &&
    decide (o.current_position - v.current_position < DETECTION_DISTANCE) &&
    decide (o.id ≠ v.id)

/-- density_factor = max(MIN_DENSITY_FACTOR, 1 − count × DENSITY_REDUCTION_RATE). -/
def densityFactor (vehicles : List Vehicle) (v : Vehicle) : ℚ :=
  max MIN_DENSITY_FACTOR (1 - (vehiclesAhead vehicles v).length * DENSITY_REDUCTION_RATE)

/-- calculate_vehicle_speed against an explicit list of visible
vehicles (inside move_vehicles the list contains the already-updated
prefix of the iteration, so the list is a parameter here). -/
def calcSpeedAux (lights : List TrafficLight) (vehicles : List Vehicle) (v : Vehicle) : ℚ :=
  if stoppedByRedLight lights v then 0
  else BASE_VEHICLE_SPEED * densityFactor vehicles v

/-- TrafficSimulation.calculate_vehicle_speed. -/
def calculate_vehicle_speed (s : SimState) (v : Vehicle) : ℚ :=
  calcSpeedAux s.traffic_lights s.vehicles v

/-! ## Admission check (TrafficSimulation.can_enter_road_segment) -/

/-- min(light.position for light in self.traffic_lights), None when the
list is empty. -/
def minLightPosition : List TrafficLight → Option ℚ
  | [] => none
  | l :: ls => some (ls.foldl (fun m x => min m x.position) l.position)

/-- TrafficSimulation.can_enter_road_segment: the initial segment runs
from the corridor start to the nearest signal (whole corridor when
there is no signal); admission succeeds iff the category-dependent
footprints already on that lane in the segment plus the candidate's
footprint fit in the segment length.  The Python default of
CAR_TOTAL_SPACE applies when no candidate vehicle is passed. -/
def can_enter_road_segment (s : SimState) (lane : ℤ) (newVehicle : Option Vehicle) : Bool :=
  let first_segment_end :=
    match minLightPosition s.traffic_lights with
    | none => s.params.road_length
    | some m => m
  let vehicles_in_first_segment := s.vehicles.filter fun v =>
    decide (v.lane = lane) && decide (v.current_position ≤ first_segment_end)
  let required_space := (vehicles_in_first_segment.map get_vehicle_space).sum
  let new_vehicle_space :=
    match newVehicle with
    | some v => get_vehicle_space v
    | none => CAR_TOTAL_SPACE
  decide (required_space + new_vehicle_space ≤ first_segment_end)

/-! ## Queue release (TrafficSimulation.process_vehicle_queue) -/

/-- The loop body of process_vehicle_queue: admit queued vehicles in
FIFO order while both the capacity ceiling and the admission check
allow it, overwriting each admitted vehicle's entry_time with the
current simulation time; stop at the first vehicle that cannot enter
(head-of-queue blocking), leaving it and everything behind it queued. -/
def pvqGo (maxCap : ℕ) (s : SimState) : List Vehicle → SimState
  | [] => { s with vehicle_queue := [] }
  | v :: rest =>
      if s.vehicles.length < maxCap ∧ can_enter_road_segment s v.lane (some v) = true then
        pvqGo maxCap
          { s with vehicles := s.vehicles ++ [{ v with entry_time := s.current_time }] } rest
      else { s with vehicle_queue := v :: rest }

/-- TrafficSimulation.process_vehicle_queue. -/
def process_vehicle_queue (s : SimState) (maxCap : ℕ) : SimState :=
  pvqGo maxCap s s.vehicle_queue

/-! ## Vehicle generation (TrafficSimulation.generate_vehicle) -/

/-- The outcomes of the random draws consumed by one generate_vehicle
call: the Bernoulli category draw, the diversion draw (with the
diversion rate itself resampled uniformly from the configured range),
the uniform choice from side_road_positions, and the value of
random.randint(0, num_lanes−1).  `lane_choice` is reduced modulo
num_lanes in the embedding so that an arbitrary draw models a value in
the legal range. -/
structure VehicleDraw where
  isPrivileged : Bool
  will_turn : Bool
  turn_position : ℚ
  lane_choice : ℕ
deriving DecidableEq

/-- TrafficSimulation.generate_vehicle.  Raising ValueError is modelled
as Except.error; the caller (step) increments next_vehicle_id after a
successful generation, mirroring the increment that Python performs
just before returning. -/
def generate_vehicle (s : SimState) (d : VehicleDraw) : Except String Vehicle :=
  let vehicle_type := if d.isPrivileged then VehicleType.privileged else VehicleType.regular
  let turn_position := if d.will_turn then some d.turn_position else none
  let lane? : Except String ℤ :=
    if vehicle_type = VehicleType.privileged ∧ s.has_bus_lane then
      let bus_lane_vehicles := s.vehicles.filter fun v => decide (v.lane = -1)
      if bus_lane_vehicles.length < calculate_bus_lane_capacity s then Except.ok (-1)
      else if 0 < s.num_lanes then Except.ok (d.lane_choice % s.num_lanes : ℕ)
      else Except.error "bus lane overflow and no regular lanes"
    else if 0 < s.num_lanes then Except.ok (d.lane_choice % s.num_lanes : ℕ)
    else Except.error "no regular lanes for a vehicle that cannot use the bus lane"
  lane?.map fun lane =>
    { id := s.next_vehicle_id
      vehicle_type := vehicle_type
      entry_time := s.current_time
      current_position := 0
      speed := 0
      lane := lane
      will_turn := d.will_turn
      turn_position := turn_position
      waiting_time := 0
      travel_time := 0 }

/-- The demand-generation loop inside step(): for each drawn arrival,
under the capacity ceiling generate and admit or enqueue; at the
ceiling generate straight into the queue.  A ValueError from
generate_vehicle is caught and breaks the loop (silently in the
under-capacity branch, with a printed warning in the at-capacity
branch); the run continues either way. -/
def genLoop (maxCap : ℕ) (s : SimState) : List VehicleDraw → SimState
  | [] => s
  | d :: rest =>
      if s.vehicles.length < maxCap then
        match generate_vehicle s d with
        | Except.ok v =>
            let s1 := { s with next_vehicle_id := s.next_vehicle_id + 1 }
            if can_enter_road_segment s1 v.lane (some v) = true then
              genLoop maxCap { s1 with vehicles := s1.vehicles ++ [v] } rest
            else
              genLoop maxCap { s1 with vehicle_queue := s1.vehicle_queue ++ [v] } rest
        | Except.error _ => s
      else
        match generate_vehicle s d with
        | Except.ok v =>
            let s1 := { s with next_vehicle_id := s.next_vehicle_id + 1 }
            genLoop maxCap { s1 with vehicle_queue := s1.vehicle_queue ++ [v] } rest
        | Except.error _ => s

/-- generate_traffic_intensity draws np.random.poisson(mean/3600) where
mean is the average of the configured intensity range; this is the
Poisson rate. -/
def trafficRate (p : SimulationParameters) : ℚ :=
  ((p.traffic_intensity_range.1 + p.traffic_intensity_range.2) / 2) / SECONDS_PER_HOUR

/-- The support of a Poisson draw: rate 0 yields 0 with probability 1;
a positive rate puts positive probability on every count.  A drawn
arrival count is faithful to generate_traffic_intensity iff it lies in
this support. -/
def poissonSupport (rate : ℚ) (n : ℕ) : Prop :=
  0 < rate ∨ n = 0

/-! ## Motion update (TrafficSimulation.move_vehicles) -/

inductive CompKind
  | turned
  | exited
deriving DecidableEq

/-- Python truthiness of the `vehicle.turn_position` test inside
move_vehicles: None and 0.0 are falsy. -/
def truthyTurnPosition : Option ℚ → Bool
  | none => false
  | some q => decide (q ≠ 0)

/-- One iteration of the move_vehicles loop for one vehicle, given the
list of vehicles visible to calculate_vehicle_speed at that moment:
recompute speed, accumulate waiting time when stopped, advance the
position, then run the completion check (diversion first, corridor end
second), stamping travel_time = current time − entry time on
completion. -/
def moveOne (lights : List TrafficLight) (visible : List Vehicle)
    (dt t roadLen : ℚ) (v : Vehicle) : Vehicle × Option CompKind :=
  let sp := calcSpeedAux lights visible v
  let wt := if sp = 0 then v.waiting_time + dt else v.waiting_time
  let pos := v.current_position + sp * (dt / SECONDS_PER_HOUR)
  let v1 : Vehicle := { v with speed := sp, waiting_time := wt, current_position := pos }
  if v.will_turn = true ∧ truthyTurnPosition v.turn_position = true ∧
      v.turn_position.getD 0 ≤ pos then
    ({ v1 with travel_time := t - v.entry_time }, some CompKind.turned)
  else if roadLen ≤ pos then
    ({ v1 with travel_time := t - v.entry_time }, some CompKind.exited)
  else (v1, none)

/-- The move_vehicles loop: vehicles are updated in place one at a
time, so the speed computation for each vehicle sees the
already-updated prefix (including vehicles already marked for removal,
which Python only removes after the loop) together with the
not-yet-updated suffix. -/
def moveLoop (lights : List TrafficLight) (dt t roadLen : ℚ) :
    List (Vehicle × Option CompKind) → List Vehicle → List (Vehicle × Option CompKind)
  | done, [] => done
  | done, v :: rest =>
      let visible := done.map Prod.fst ++ v :: rest
      moveLoop lights dt t roadLen (done ++ [moveOne lights visible dt t roadLen v]) rest

/-- The per-vehicle results of one move_vehicles call. -/
def moveProcessed (s : SimState) : List (Vehicle × Option CompKind) :=
  moveLoop s.traffic_lights s.params.time_step s.current_time s.params.road_length [] s.vehicles

/-- TrafficSimulation.move_vehicles: after the loop, completed vehicles
are appended (in processing order) to completed_vehicles and removed
from the active list. -/
def move_vehicles (s : SimState) : SimState :=
  let processed := moveProcessed s
  { s with
    vehicles := (processed.filter fun p => p.2.isNone).map Prod.fst
    completed_vehicles :=
      s.completed_vehicles ++ (processed.filter fun p => !p.2.isNone).map Prod.fst }

/-! ## Congestion length (TrafficSimulation.calculate_traffic_jam_length) -/

/-- Stable insertion by position: the element goes in front of the
first element with a position not smaller than its own, so equal
positions keep their original relative order. -/
def sortInsert (v : Vehicle) : List Vehicle → List Vehicle
  | [] => [v]
  | w :: ws =>
      if v.current_position ≤ w.current_position then v :: w :: ws
      else w :: sortInsert v ws

/-- Models the Python stable sort by position key
(list.sort with a position key is a stable sort; any stable sort by
the same key yields the same list). -/
def sortByPosition : List Vehicle → List Vehicle
  | [] => []
  | v :: vs => sortInsert v (sortByPosition vs)

/-- The accumulation loop of calculate_traffic_jam_length over the
position-sorted slow vehicles after the first: extend the current jam
segment by the vehicle's footprint while the gap to the previous
vehicle is below the jam threshold, otherwise close the segment
(recording the running maximum) and start a new one with this
vehicle's footprint.  Returns (max_jam_length, current_jam_length). -/
def jamLoop (prev maxJam curJam : ℚ) : List Vehicle → ℚ × ℚ
  | [] => (maxJam, curJam)
  | v :: rest =>
      let vehicle_space := get_vehicle_space v
      if v.current_position - prev < JAM_THRESHOLD_DISTANCE then
        jamLoop v.current_position maxJam (curJam + vehicle_space) rest
      else
        jamLoop v.current_position (max maxJam curJam) vehicle_space rest

/-- The slow_vehicles comprehension of calculate_traffic_jam_length:
active vehicles with speed below SLOW_TRAFFIC_THRESHOLD. -/
def slowVehicles (s : SimState) : List Vehicle :=
  s.vehicles.filter fun v => decide (v.speed < SLOW_TRAFFIC_THRESHOLD)

/-- TrafficSimulation.calculate_traffic_jam_length: 0 with no slow
vehicle; otherwise the first sorted slow vehicle opens a segment with
its own footprint and the loop above processes the rest, the answer
being max(max_jam_length, current_jam_length). -/
def calculate_traffic_jam_length (s : SimState) : ℚ :=
  match sortByPosition (slowVehicles s) with
  | [] => 0
  | v :: rest =>
      let mc := jamLoop v.current_position 0 (get_vehicle_space v) rest
      max mc.1 mc.2

/-! ## Priority-lane efficiency (TrafficSimulation.calculate_bus_efficiency) -/

/-- np.mean over a list of rationals (the caller guarantees the list
is nonempty wherever this is used unconditionally). -/
def listMean (l : List ℚ) : ℚ := l.sum / (l.length : ℚ)

/-- np.mean of a possibly-empty list: an empty list yields NaN in
numpy, modelled as none. -/
def meanOpt (l : List ℚ) : Option ℚ :=
  if l.isEmpty then none else some (listMean l)

/-- The completed vehicles of one category. -/
def completedOfType (s : SimState) (t : VehicleType) : List Vehicle :=
  s.completed_vehicles.filter fun v => decide (v.vehicle_type = t)

/-- The realized-speed samples of calculate_bus_efficiency:
current_position / max(travel_time, 1) × 3600 over the vehicles with
travel_time > 0. -/
def realizedSpeeds (l : List Vehicle) : List ℚ :=
  (l.filter fun v => decide (0 < v.travel_time)).map
    fun v => v.current_position / max v.travel_time 1 * 3600

/-- The per-category mean realized speed; none models the NaN that
np.mean returns when no completed vehicle of the category has positive
travel time. -/
def speedMeanOf (s : SimState) (t : VehicleType) : Option ℚ :=
  meanOpt (realizedSpeeds (completedOfType s t))

/-- time_efficiency = max(0, (avg_regular_time − avg_bus_time) /
avg_regular_time × 100).  (In Python a zero regular mean makes the
quotient ±inf or NaN and max(0, ·) still returns 0.0, which agrees
with rational division by zero yielding 0 here.) -/
def timeEfficiencyOf (s : SimState) : ℚ :=
  let avg_bus_time := listMean ((completedOfType s VehicleType.privileged).map Vehicle.travel_time)
  let avg_regular_time := listMean ((completedOfType s VehicleType.regular).map Vehicle.travel_time)
  max 0 ((avg_regular_time - avg_bus_time) / avg_regular_time * 100)

/-- The speed_efficiency term: Python computes
max(0.0, (bus_speed − regular_speed)/regular_speed × 100) if
regular_speed > 0 else 0.0.  A NaN regular mean fails the > 0 test; a
NaN bus mean makes the argument of max NaN and max(0.0, NaN) is 0.0. -/
def speedEfficiencyOf (s : SimState) : ℚ :=
  match speedMeanOf s VehicleType.regular with
  | none => 0
  | some regular_speed =>
      if 0 < regular_speed then
        match speedMeanOf s VehicleType.privileged with
        | none => 0
        | some bus_speed => max 0 ((bus_speed - regular_speed) / regular_speed * 100)
      else 0

/-- TrafficSimulation.calculate_bus_efficiency. -/
def calculate_bus_efficiency (s : SimState) : ℚ :=
  if s.has_bus_lane = false then 0
  else if (completedOfType s VehicleType.privileged).isEmpty ∨
      (completedOfType s VehicleType.regular).isEmpty then 0
  else timeEfficiencyOf s * (7/10) + speedEfficiencyOf s * (3/10)

/-! ## Telemetry (TrafficSimulation.collect_simulation_data) -/

/-- collect_simulation_data: append the current time, counts, mean
speed (0 when no vehicle is active), congestion length, bus-lane
occupancy (0 without a bus lane) and queue depth to the time series. -/
def collect_simulation_data (s : SimState) : SimState :=
  { s with
    timesteps := s.timesteps ++ [s.current_time]
    vehicles_in_motion := s.vehicles_in_motion ++ [s.vehicles.length]
    average_speeds := s.average_speeds ++
      [if s.vehicles.isEmpty then 0 else listMean (s.vehicles.map Vehicle.speed)]
    jam_lengths := s.jam_lengths ++ [calculate_traffic_jam_length s]
    bus_lane_utilization := s.bus_lane_utilization ++
      [if s.has_bus_lane then (s.vehicles.filter fun v => decide (v.lane = -1)).length else 0]
    vehicles_in_queue := s.vehicles_in_queue ++ [s.vehicle_queue.length] }

/-! ## One step (TrafficSimulation.step) -/

/-- The capacity ceiling computed at the top of step(): per-lane
nominal capacity times the regular lane count, plus the derived
bus-lane capacity when a bus lane exists (the special num_lanes = 0
branch in the code coincides with the general formula there). -/
def stepMaxCapacity (s : SimState) : ℕ :=
  let mc := s.params.lane_capacity * s.num_lanes
  let mc := if s.has_bus_lane then mc + calculate_bus_lane_capacity s else mc
  if s.num_lanes = 0 ∧ s.has_bus_lane then calculate_bus_lane_capacity s else mc

/-- TrafficSimulation.step, with the arrivals drawn this step passed
explicitly: queue release, demand generation, signal update, motion
update, telemetry capture, clock advance.  The drawn arrival list is
faithful to generate_traffic_intensity iff its length lies in
poissonSupport (trafficRate s.params). -/
def step (s : SimState) (draws : List VehicleDraw) : SimState :=
  let maxCap := stepMaxCapacity s
  let s1 := process_vehicle_queue s maxCap
  let s2 := genLoop maxCap s1 draws
  let s3 := update_traffic_lights s2
  let s4 := move_vehicles s3
  let s5 := collect_simulation_data s4
  { s5 with current_time := s5.current_time + s5.params.time_step }

/-- n successive step() calls, feeding step i the draw list draws i. -/
def iterateSteps (draws : ℕ → List VehicleDraw) (s : SimState) : ℕ → SimState
  | 0 => s
  | n + 1 => step (iterateSteps draws s n) (draws n)

/-! ## Full run (TrafficSimulation.run_simulation) -/

inductive PyError
  | zeroDivision
deriving DecidableEq

/-- The summary record returned by run_simulation (the raw-data counts;
the wall-clock duration, filename and description strings carry no
algorithmic content and are omitted). -/
structure RunSummary where
  completed_vehicles : ℕ
  vehicles_in_simulation : ℕ
  vehicles_in_queue : ℕ
  data_points : ℕ
deriving DecidableEq

/-- The run_simulation loop: each iteration calls step() and then
evaluates `step % (steps // 10)` for the progress report; when
steps // 10 = 0 that expression raises ZeroDivisionError, which
run_simulation does not catch. -/
def runLoop (draws : ℕ → List VehicleDraw) (steps : ℕ) :
    SimState → ℕ → ℕ → Except PyError SimState
  | s, _, 0 => Except.ok s
  | s, i, fuel + 1 =>
      let s1 := step s (draws i)
      if steps / 10 = 0 then Except.error PyError.zeroDivision
      else runLoop draws steps s1 (i + 1) fuel

/-- The step count of a run: int(simulation_duration / time_step). -/
def runSteps (p : SimulationParameters) : ℕ :=
  (pyTrunc (p.simulation_duration / p.time_step)).toNat

/-- TrafficSimulation.run_simulation reduced to its algorithmic
content: run the step loop (with the per-iteration progress-report
modulo, whose divisor steps // 10 raises ZeroDivisionError when zero)
and return the summary counts. -/
def run_simulation (s : SimState) (draws : ℕ → List VehicleDraw) : Except PyError RunSummary :=
  let steps := runSteps s.params
  (runLoop draws steps s 0 steps).map fun s1 =>
    { completed_vehicles := s1.completed_vehicles.length
      vehicles_in_simulation := s1.vehicles.length
      vehicles_in_queue := s1.vehicle_queue.length
      data_points := s1.timesteps.length }

/-! ## The speed claim of spec section 4.2, as stated

The spec asserts that the priority lane receives a fixed positive
speed multiplier (capped at the free-flow speed) reflecting reduced
interference, i.e. a multiplier strictly above 1 applied on top of the
density-reduced speed for vehicles on the priority lane that are not
stopped at a red signal. -/
def priorityMultiplierClaim : Prop :=
  ∃ m : ℚ, 1 < m ∧
    ∀ (s : SimState) (v : Vehicle), v ∈ s.vehicles → v.lane = -1 →
      stoppedByRedLight s.traffic_lights v = false →
      calculate_vehicle_speed s v =
        min BASE_VEHICLE_SPEED (BASE_VEHICLE_SPEED * densityFactor s.vehicles v * m)

/-! ## Concrete fixtures for witnesses and counterexamples -/

/-- A regular car at a given position/speed/lane. -/
def mkCar (i : ℕ) (pos speed : ℚ) (lane : ℤ) : Vehicle :=
  { id := i, vehicle_type := VehicleType.regular, entry_time := 0,
    current_position := pos, speed := speed, lane := lane,
    will_turn := false, turn_position := none, waiting_time := 0, travel_time := 0 }

/-- A privileged (bus) vehicle at a given position/speed/lane. -/
def mkBus (i : ℕ) (pos speed : ℚ) (lane : ℤ) : Vehicle :=
  { id := i, vehicle_type := VehicleType.privileged, entry_time := 0,
    current_position := pos, speed := speed, lane := lane,
    will_turn := false, turn_position := none, waiting_time := 0, travel_time := 0 }

/-- Default-like run parameters (5 km corridor, 1 s steps, 1 h run). -/
def fxParams : SimulationParameters :=
  { traffic_intensity_range := (500, 1500), road_length := 5, lane_capacity := 75,
    traffic_light_cycle := 60, simulation_duration := 3600, time_step := 1 }

/-- An engine state with two regular lanes, no bus lane, no signals and
no vehicles. -/
def fxEmpty : SimState :=
  { num_lanes := 2, has_bus_lane := false, params := fxParams, current_time := 0,
    vehicles := [], completed_vehicles := [], vehicle_queue := [],
    traffic_lights := [], next_vehicle_id := 1, timesteps := [],
    vehicles_in_motion := [], average_speeds := [], jam_lengths := [],
    bus_lane_utilization := [], vehicles_in_queue := [] }

/-- A bus-lane state whose completed list has vehicles of both
categories but where no completed bus has positive travel time: the bus
mean realized speed is the mean of an empty list (NaN). -/
def fxSpeedGap : SimState :=
  { fxEmpty with
    has_bus_lane := true
    completed_vehicles :=
      [{ mkBus 10 5 0 (-1) with travel_time := 0 },
       { mkCar 11 1 0 0 with travel_time := 2 }] }

/-- A bus-lane state where both categories have completed vehicles with
positive travel times, so both mean realized speeds exist. -/
def fxBothSpeeds : SimState :=
  { fxEmpty with
    has_bus_lane := true
    completed_vehicles :=
      [{ mkBus 10 5 0 (-1) with travel_time := 1 },
       { mkCar 11 1 0 0 with travel_time := 2 }] }

/-- A bus lane with completed buses but no completed regular vehicle. -/
def fxOneCategory : SimState :=
  { fxEmpty with
    has_bus_lane := true
    completed_vehicles := [{ mkBus 10 5 0 (-1) with travel_time := 1 }] }

/-- The rear of two buses 0.1 km apart on the priority lane. -/
def fxRearBus : Vehicle := mkBus 1 (1/10) 0 (-1)

/-- Two buses on the priority lane, 0.1 km apart (within the 0.5 km
detection distance), no signals: the rear bus sees one vehicle ahead,
so its density factor is 0.85 and its computed speed 42.5 km/h. -/
def fxBusPair : SimState :=
  { fxEmpty with
    has_bus_lane := true
    vehicles := [fxRearBus, mkBus 2 (2/10) 0 (-1)] }

/-- A signal whose green duration (1.5 s) is not a multiple of the 1 s
update cadence: with updates at t = 0, 1, 2 the green→red transition
happens at elapsed time 2, overshooting the green duration. -/
def fxLight : TrafficLight :=
  { position := 1, cycle_duration := 3, green_duration := 3/2,
    current_phase := Phase.green, phase_start_time := 0 }

/-- Two stopped (slow) cars 0.1 km apart — more than the 0.05 km jam
threshold — on one lane. -/
def fxTwoFar : SimState :=
  { fxEmpty with vehicles := [mkCar 1 (1/10) 0 0, mkCar 2 (2/10) 0 0] }

/-- The zero-lane layout: no regular lanes and no bus lane. -/
def fxCfgZero : InfrastructureConfig :=
  { num_lanes := 0, has_bus_lane := false, traffic_light_positions := [],
    traffic_light_green_ratio := 6/10, cycle_duration := none }

/-- A freshly constructed engine over the zero-lane layout. -/
def fxZeroLanes : SimState := mkSimulation fxParams fxCfgZero

/-- One regular-category arrival draw. -/
def fxDraw : VehicleDraw :=
  { isPrivileged := false, will_turn := false, turn_position := 0, lane_choice := 0 }

/-- Parameters with zero demand: intensity range (0, 0). -/
def fxZeroDemandParams : SimulationParameters :=
  { fxParams with traffic_intensity_range := (0, 0) }

/-- A layout used by the zero-demand witness. -/
def fxCfgPlain : InfrastructureConfig :=
  { num_lanes := 2, has_bus_lane := false, traffic_light_positions := [5/2],
    traffic_light_green_ratio := 6/10, cycle_duration := none }

/-- A run whose duration covers 5 steps of 1 s: steps // 10 = 0 and the
progress report divides by zero. -/
def fxShortRun : SimState :=
  { fxEmpty with params := { fxParams with simulation_duration := 5 } }

/-- A state whose queue holds one car generated at time 0, observed at
simulation time 7; the road is empty so the car is admitted. -/
def fxQueued : SimState :=
  { fxEmpty with current_time := 7, vehicle_queue := [mkCar 3 0 0 0] }

/-- A diverting car: flagged to turn at 1 km, currently at 1 km with
the corridor end at 5 km; entry at time 2 observed at time 5. -/
def fxTurnCar : Vehicle :=
  { mkCar 4 1 0 0 with will_turn := true, turn_position := some 1, entry_time := 2 }

/-- A one-vehicle state in which fxTurnCar completes by diversion. -/
def fxTurnState : SimState :=
  { fxEmpty with current_time := 5, vehicles := [fxTurnCar] }

/-- A car flagged to divert whose diversion position is 0.0: Python's
truthiness test on the position treats 0.0 as falsy, so the diversion
branch of the completion check never fires for it. -/
def fxZeroTurnCar : Vehicle :=
  { mkCar 6 1 0 0 with will_turn := true, turn_position := some 0 }

/-- A one-vehicle state holding fxZeroTurnCar mid-corridor. -/
def fxZeroTurnState : SimState :=
  { fxEmpty with current_time := 5, vehicles := [fxZeroTurnCar] }

/-- The post-update value of fxTurnCar after one motion update of
fxTurnState: advanced to 73/72 km at 50 km/h, completed by diversion
with travel_time 5 − 2 = 3. -/
def fxTurnDone : Vehicle :=
  { id := 4, vehicle_type := VehicleType.regular, entry_time := 2,
    current_position := 73/72, speed := 50, lane := 0, will_turn := true,
    turn_position := some 1, waiting_time := 0, travel_time := 3 }

/-! ## Shared lemmas -/

theorem get_vehicle_space_pos (v : Vehicle) : 0 < get_vehicle_space v := by
  unfold get_vehicle_space BUS_TOTAL_SPACE CAR_TOTAL_SPACE
  split <;> norm_num

theorem regular_ne_privileged : (VehicleType.regular = VehicleType.privileged) ↔ False := by
  simp

theorem privileged_ne_regular : (VehicleType.privileged = VehicleType.regular) ↔ False := by
  simp

/-! ## Claim C6 -/

/-- C6: the priority-lane efficiency score is exactly 0 whenever the
layout has no priority lane, and also whenever completed vehicles of
the priority category or of the regular category are absent. -/
theorem bus_efficiency_zero_cases (s : SimState) :
    (s.has_bus_lane = false → calculate_bus_efficiency s = 0) ∧
    ((completedOfType s VehicleType.privileged = [] ∨
      completedOfType s VehicleType.regular = []) → calculate_bus_efficiency s = 0) := by
  constructor
  · intro h
    simp [calculate_bus_efficiency, h]
  · intro h
    rcases h with h | h <;> simp [calculate_bus_efficiency, h]

/-- C6 witness: a layout without a bus lane scores 0, and a bus-lane
layout with completed vehicles of only one category scores 0. -/
theorem bus_efficiency_zero_cases_witness :
    calculate_bus_efficiency fxEmpty = 0 ∧ calculate_bus_efficiency fxOneCategory = 0 :=
  ⟨(bus_efficiency_zero_cases fxEmpty).1 rfl,
   (bus_efficiency_zero_cases fxOneCategory).2 (Or.inr (by decide))⟩

/-! ## Claim C9 -/

/-- C9: when floor(simulation_duration / time_step) is between 1 and 9,
run_simulation raises ZeroDivisionError on its first loop iteration
(the progress report computes step % (steps // 10) with steps // 10 =
0) instead of returning a summary record. -/
theorem run_simulation_zero_division (s : SimState) (draws : ℕ → List VehicleDraw)
    (h1 : 1 ≤ runSteps s.params) (h9 : runSteps s.params ≤ 9) :
    run_simulation s draws = Except.error PyError.zeroDivision := by
  unfold run_simulation
  rcases hn : runSteps s.params with _ | k
  · omega
  · rw [hn] at h9
    have hdiv : (k + 1) / 10 = 0 := Nat.div_eq_of_lt (by omega)
    simp [runLoop, hdiv, Except.map]

/-- C9 witness: a 5 s run at 1 s steps (5 steps) fails with
ZeroDivisionError. -/
theorem run_simulation_zero_division_witness :
    run_simulation fxShortRun (fun _ => []) = Except.error PyError.zeroDivision :=
  run_simulation_zero_division fxShortRun (fun _ => [])
    (by norm_num [runSteps, pyTrunc, fxShortRun, fxEmpty, fxParams])
    (by norm_num [runSteps, pyTrunc, fxShortRun, fxEmpty, fxParams])

/-! ## Claim C10 -/

theorem pvqGo_entry_time (maxCap : ℕ) :
    ∀ (q : List Vehicle) (s : SimState) (v : Vehicle),
      v ∈ (pvqGo maxCap s q).vehicles → v ∈ s.vehicles ∨ v.entry_time = s.current_time := by
  intro q
  induction q with
  | nil =>
      intro s v hv
      exact Or.inl hv
  | cons w rest ih =>
      intro s v hv
      rw [pvqGo] at hv
      split at hv
      · rcases ih _ v hv with h | h
        · rcases List.mem_append.mp h with h' | h'
          · exact Or.inl h'
          · right
            rcases List.mem_singleton.mp h' with rfl
            rfl
        · exact Or.inr h
      · exact Or.inl hv

/-- C10: a vehicle admitted from the queue has its entry_time
overwritten with the current simulation time before activation, and
when such a vehicle later completes at time t, the travel_time stamped
by the motion update is t minus that admission time — the time spent
waiting in the queue is excluded. -/
theorem queue_release_resets_entry_time (s : SimState) (maxCap : ℕ) :
    (∀ v ∈ (process_vehicle_queue s maxCap).vehicles,
       v ∉ s.vehicles → v.entry_time = s.current_time) ∧
    (∀ (lights : List TrafficLight) (visible : List Vehicle) (dt t roadLen : ℚ)
       (w : Vehicle), w.entry_time = s.current_time →
       (moveOne lights visible dt t roadLen w).2 ≠ none →
       (moveOne lights visible dt t roadLen w).1.travel_time = t - s.current_time) := by
  constructor
  · intro v hv hnot
    rcases pvqGo_entry_time maxCap s.vehicle_queue s v hv with h | h
    · exact absurd h hnot
    · exact h
  · intro lights visible dt t roadLen w hw hcomp
    rw [← hw]
    by_cases h1 : w.will_turn = true ∧ truthyTurnPosition w.turn_position = true ∧
        w.turn_position.getD 0 ≤
          w.current_position + calcSpeedAux lights visible w * (dt / SECONDS_PER_HOUR)
    · simp [moveOne, h1]
    · by_cases h2 : roadLen ≤
          w.current_position + calcSpeedAux lights visible w * (dt / SECONDS_PER_HOUR)
      · simp [moveOne, h1, h2]
      · exact absurd (by simp [moveOne, h1, h2]) hcomp

/-- C10 witness: the car queued at time 0 in fxQueued is admitted at
simulation time 7 with entry_time 7, and a completion of the admitted
car at time 9 stamps travel_time 9 − 7. -/
theorem queue_release_resets_entry_time_witness :
    ({ mkCar 3 0 0 0 with entry_time := 7 } : Vehicle).entry_time = fxQueued.current_time ∧
    (moveOne [] [] 1 9 0 { mkCar 3 0 0 0 with entry_time := 7 }).1.travel_time =
      9 - fxQueued.current_time :=
  ⟨(queue_release_resets_entry_time fxQueued 10).1 { mkCar 3 0 0 0 with entry_time := 7 }
      (by norm_num [process_vehicle_queue, pvqGo, can_enter_road_segment, minLightPosition,
        fxQueued, fxEmpty, fxParams, mkCar, get_vehicle_space, CAR_TOTAL_SPACE,
        regular_ne_privileged])
      (by norm_num [fxQueued, fxEmpty, mkCar]),
   (queue_release_resets_entry_time fxQueued 10).2 [] [] 1 9 0
      { mkCar 3 0 0 0 with entry_time := 7 } rfl
      (by
        have h2 : (moveOne [] [] 1 9 0 { mkCar 3 0 0 0 with entry_time := 7 }).2 =
            some CompKind.exited := by
          norm_num [moveOne, mkCar, calcSpeedAux, stoppedByRedLight, vehiclesAhead,
            densityFactor, truthyTurnPosition, BASE_VEHICLE_SPEED, MIN_DENSITY_FACTOR,
            DENSITY_REDUCTION_RATE, SECONDS_PER_HOUR]
        rw [h2]
        exact Option.some_ne_none _)⟩

/-! ## Claim C4 -/

/-- C4 counterexample: a signal with green duration 1.5 s updated at
t = 0, 1, 2 transitions green→red at t = 2 with elapsed phase time 2,
which differs from the green duration — the elapsed time at a
transition does not always equal the ending phase's duration. -/
theorem light_transition_overshoot :
    updateLight 0 fxLight = fxLight ∧ updateLight 1 fxLight = fxLight ∧
    (updateLight 2 fxLight).current_phase = Phase.red ∧
    2 - fxLight.phase_start_time ≠ fxLight.green_duration := by
  refine ⟨?_, ?_, ?_, ?_⟩ <;> norm_num [updateLight, fxLight]

/-- C4 amended: at every phase transition performed by the signal
update the elapsed time in the ending phase is at least (rather than
exactly equal to) the green duration for a green→red flip and at least
the cycle duration minus the green duration for a red→green flip, and
the phase-start time is reset to the transition time. -/
theorem light_transition_elapsed_bound (t : ℚ) (l : TrafficLight) :
    (l.current_phase = Phase.green → (updateLight t l).current_phase = Phase.red →
      l.green_duration ≤ t - l.phase_start_time ∧ (updateLight t l).phase_start_time = t) ∧
    (l.current_phase = Phase.red → (updateLight t l).current_phase = Phase.green →
      l.cycle_duration - l.green_duration ≤ t - l.phase_start_time ∧
      (updateLight t l).phase_start_time = t) := by
  constructor
  · intro hg hflip
    by_cases h : l.green_duration ≤ t - l.phase_start_time
    · exact ⟨h, by simp [updateLight, hg, h]⟩
    · rw [show updateLight t l = l from by simp [updateLight, hg, h], hg] at hflip
      exact absurd hflip (by simp)
  · intro hr hflip
    by_cases h : l.cycle_duration - l.green_duration ≤ t - l.phase_start_time
    · exact ⟨h, by simp [updateLight, hr, h]⟩
    · rw [show updateLight t l = l from by simp [updateLight, hr, h], hr] at hflip
      exact absurd hflip (by simp)

/-- C4 amended witness: the t = 2 transition of fxLight overshoots the
1.5 s green duration and resets the phase start to 2. -/
theorem light_transition_elapsed_bound_witness :
    fxLight.green_duration ≤ 2 - fxLight.phase_start_time ∧
    (updateLight 2 fxLight).phase_start_time = 2 :=
  (light_transition_elapsed_bound 2 fxLight).1 rfl (by norm_num [updateLight, fxLight])

/-! ## Claim C2 -/

/-- C2 counterexample: no fixed multiplier above 1 describes the
computed speed of priority-lane vehicles.  The rear of two buses on
the priority lane has density factor 0.85 and computed speed exactly
42.5 = 50 × 0.85: the code applies no priority-lane multiplier at all,
so for every m > 1 the claimed formula
min(base, base × density × m) disagrees with the computed speed. -/
theorem priority_multiplier_refuted : ¬ priorityMultiplierClaim := by
  rintro ⟨m, hm, h⟩
  have hs := h fxBusPair fxRearBus (by simp [fxBusPair]) rfl rfl
  have hcs : calculate_vehicle_speed fxBusPair fxRearBus = 85/2 := by
    norm_num [calculate_vehicle_speed, calcSpeedAux, stoppedByRedLight, densityFactor,
      vehiclesAhead, fxBusPair, fxEmpty, fxRearBus, mkBus, BASE_VEHICLE_SPEED,
      MIN_DENSITY_FACTOR, DENSITY_REDUCTION_RATE, DETECTION_DISTANCE]
  have hdf : densityFactor fxBusPair.vehicles fxRearBus = 17/20 := by
    norm_num [densityFactor, vehiclesAhead, fxBusPair, fxEmpty, fxRearBus, mkBus,
      MIN_DENSITY_FACTOR, DENSITY_REDUCTION_RATE, DETECTION_DISTANCE]
  rw [hcs, hdf, BASE_VEHICLE_SPEED] at hs
  rw [show (50:ℚ) * (17/20) = 85/2 from by norm_num] at hs
  rcases le_total ((85:ℚ)/2 * m) 50 with hle | hle
  · rw [min_eq_right hle] at hs
    nlinarith
  · rw [min_eq_left hle] at hs
    norm_num at hs

/-- C2 amended: a priority-lane vehicle not stopped ahead of a red
signal gets exactly the density-reduced speed — base free-flow speed
times the density factor, with no priority-lane multiplier — and that
speed never exceeds the base free-flow speed (the density factor is at
most 1). -/
theorem priority_lane_speed (s : SimState) (v : Vehicle)
    (_hv : v ∈ s.vehicles) (_hl : v.lane = -1)
    (hstop : stoppedByRedLight s.traffic_lights v = false) :
    calculate_vehicle_speed s v = BASE_VEHICLE_SPEED * densityFactor s.vehicles v ∧
    calculate_vehicle_speed s v ≤ BASE_VEHICLE_SPEED := by
  have heq : calculate_vehicle_speed s v = BASE_VEHICLE_SPEED * densityFactor s.vehicles v := by
    simp [calculate_vehicle_speed, calcSpeedAux, hstop]
  refine ⟨heq, ?_⟩
  rw [heq]
  have hd : densityFactor s.vehicles v ≤ 1 := by
    unfold densityFactor MIN_DENSITY_FACTOR
    apply max_le
    · norm_num
    · have : (0:ℚ) ≤ ((vehiclesAhead s.vehicles v).length : ℚ) * DENSITY_REDUCTION_RATE := by
        unfold DENSITY_REDUCTION_RATE
        positivity
      linarith
  calc BASE_VEHICLE_SPEED * densityFactor s.vehicles v
      ≤ BASE_VEHICLE_SPEED * 1 := by
        apply mul_le_mul_of_nonneg_left hd
        unfold BASE_VEHICLE_SPEED
        norm_num
    _ = BASE_VEHICLE_SPEED := mul_one _

/-- C2 amended witness: the rear bus of fxBusPair moves at
50 × 0.85 = 42.5 km/h, within the free-flow bound. -/
theorem priority_lane_speed_witness :
    calculate_vehicle_speed fxBusPair fxRearBus =
      BASE_VEHICLE_SPEED * densityFactor fxBusPair.vehicles fxRearBus ∧
    calculate_vehicle_speed fxBusPair fxRearBus ≤ BASE_VEHICLE_SPEED :=
  priority_lane_speed fxBusPair fxRearBus (by simp [fxBusPair]) rfl rfl

/-! ## Claim C3 -/

/-- C3 counterexample: in fxSpeedGap the bus mean realized speed does
not exist (no completed bus has positive travel time) while the
time-efficiency is 100; the function returns 0.7 × 100 = 70, not the
unweighted time-efficiency 100 that the claim asserts for this case. -/
theorem bus_efficiency_fallback_refuted :
    fxSpeedGap.has_bus_lane = true ∧
    completedOfType fxSpeedGap VehicleType.privileged ≠ [] ∧
    completedOfType fxSpeedGap VehicleType.regular ≠ [] ∧
    speedMeanOf fxSpeedGap VehicleType.privileged = none ∧
    timeEfficiencyOf fxSpeedGap = 100 ∧
    calculate_bus_efficiency fxSpeedGap = 70 ∧
    calculate_bus_efficiency fxSpeedGap ≠ timeEfficiencyOf fxSpeedGap := by
  refine ⟨rfl, ?_, ?_, ?_, ?_, ?_, ?_⟩ <;>
    norm_num [completedOfType, speedMeanOf, meanOpt, realizedSpeeds, listMean,
      timeEfficiencyOf, speedEfficiencyOf, calculate_bus_efficiency,
      fxSpeedGap, fxEmpty, mkBus, mkCar, regular_ne_privileged, privileged_ne_regular]

/-- C3 amended: with a priority lane and completed vehicles of both
categories, the score is 0.7 × time-efficiency + 0.3 ×
speed-efficiency when both mean realized speeds exist and the regular
mean is positive; when they do not both exist (or the regular mean is
not positive) the speed term is 0 and the score is 0.7 ×
time-efficiency — not the unweighted time-efficiency. -/
theorem bus_efficiency_weighting (s : SimState)
    (hb : s.has_bus_lane = true)
    (hp : completedOfType s VehicleType.privileged ≠ [])
    (hr : completedOfType s VehicleType.regular ≠ []) :
    ((speedMeanOf s VehicleType.regular = none ∨
      speedMeanOf s VehicleType.privileged = none ∨
      (∃ r, speedMeanOf s VehicleType.regular = some r ∧ r ≤ 0)) →
      calculate_bus_efficiency s = timeEfficiencyOf s * (7/10)) ∧
    (∀ b r, speedMeanOf s VehicleType.privileged = some b →
      speedMeanOf s VehicleType.regular = some r → 0 < r →
      calculate_bus_efficiency s =
        timeEfficiencyOf s * (7/10) + max 0 ((b - r) / r * 100) * (3/10)) := by
  have hmain : calculate_bus_efficiency s =
      timeEfficiencyOf s * (7/10) + speedEfficiencyOf s * (3/10) := by
    simp [calculate_bus_efficiency, hb, List.isEmpty_iff, hp, hr]
  constructor
  · intro hcase
    have hzero : speedEfficiencyOf s = 0 := by
      rcases hcase with hn | hn | ⟨r, hrs, hr0⟩
      · simp [speedEfficiencyOf, hn]
      · unfold speedEfficiencyOf
        rcases hrr : speedMeanOf s VehicleType.regular with _ | r
        · rfl
        · simp [hn]
      · simp [speedEfficiencyOf, hrs, not_lt.mpr hr0]
    rw [hmain, hzero, zero_mul, add_zero]
  · intro b r hbs hrs hr0
    rw [hmain]
    have : speedEfficiencyOf s = max 0 ((b - r) / r * 100) := by
      simp [speedEfficiencyOf, hbs, hrs, hr0]
    rw [this]

/-- C3 amended witness: in fxBothSpeeds both mean realized speeds
exist (18000 for buses, 1800 for cars) and the score is
0.7 × time-efficiency + 0.3 × the speed-efficiency term. -/
theorem bus_efficiency_weighting_witness :
    calculate_bus_efficiency fxBothSpeeds =
      timeEfficiencyOf fxBothSpeeds * (7/10) +
        max 0 (((18000:ℚ) - 1800) / 1800 * 100) * (3/10) :=
  (bus_efficiency_weighting fxBothSpeeds rfl
      (by norm_num [completedOfType, fxBothSpeeds, fxEmpty, mkBus, mkCar,
        privileged_ne_regular, regular_ne_privileged])
      (by norm_num [completedOfType, fxBothSpeeds, fxEmpty, mkBus, mkCar,
        privileged_ne_regular, regular_ne_privileged])).2 18000 1800
    (by norm_num [speedMeanOf, completedOfType, meanOpt, realizedSpeeds, listMean,
      fxBothSpeeds, fxEmpty, mkBus, mkCar, privileged_ne_regular, regular_ne_privileged])
    (by norm_num [speedMeanOf, completedOfType, meanOpt, realizedSpeeds, listMean,
      fxBothSpeeds, fxEmpty, mkBus, mkCar, privileged_ne_regular, regular_ne_privileged])
    (by norm_num)

/-! ## Claim C5 -/

theorem sortByPosition_pair (v w : Vehicle) :
    sortByPosition [v, w] =
      if v.current_position ≤ w.current_position then [v, w] else [w, v] := by
  simp only [sortByPosition, sortInsert]

/-- C5: the congestion length is 0 with no slow vehicle; a lone slow
vehicle contributes exactly its own category-dependent footprint; and
two slow vehicles more than the jam-gap threshold apart form two
separate segments whose maximum — not whose sum — is reported. -/
theorem traffic_jam_length_segments (s : SimState) :
    (slowVehicles s = [] → calculate_traffic_jam_length s = 0) ∧
    (∀ v, slowVehicles s = [v] → calculate_traffic_jam_length s = get_vehicle_space v) ∧
    (∀ v w, slowVehicles s = [v, w] →
      (v.current_position + JAM_THRESHOLD_DISTANCE < w.current_position ∨
       w.current_position + JAM_THRESHOLD_DISTANCE < v.current_position) →
      calculate_traffic_jam_length s = max (get_vehicle_space v) (get_vehicle_space w) ∧
      calculate_traffic_jam_length s < get_vehicle_space v + get_vehicle_space w) := by
  have hJ : (0:ℚ) < JAM_THRESHOLD_DISTANCE := by unfold JAM_THRESHOLD_DISTANCE; norm_num
  refine ⟨?_, ?_, ?_⟩
  · intro h
    unfold calculate_traffic_jam_length
    rw [h]
    rfl
  · intro v h
    unfold calculate_traffic_jam_length
    rw [h]
    simp only [sortByPosition, sortInsert, jamLoop]
    exact max_eq_right (le_of_lt (get_vehicle_space_pos v))
  · intro v w h hgap
    have h1 := get_vehicle_space_pos v
    have h2 := get_vehicle_space_pos w
    unfold calculate_traffic_jam_length
    rw [h, sortByPosition_pair]
    rcases hgap with hgap | hgap
    · rw [if_pos (le_of_lt (by linarith))]
      simp only [jamLoop]
      rw [if_neg (by linarith)]
      simp only [jamLoop]
      rw [max_eq_right (le_of_lt h1)]
      exact ⟨rfl, max_lt (by linarith) (by linarith)⟩
    · rw [if_neg (by push_neg; linarith)]
      simp only [jamLoop]
      rw [if_neg (by linarith)]
      simp only [jamLoop]
      rw [max_eq_right (le_of_lt h2)]
      exact ⟨max_comm _ _, max_lt (by linarith) (by linarith)⟩

/-- C5 witness: two stopped cars 0.1 km apart (beyond the 0.05 km
threshold) yield a congestion length equal to the larger footprint and
strictly below the sum of the footprints. -/
theorem traffic_jam_length_segments_witness :
    calculate_traffic_jam_length fxTwoFar =
      max (get_vehicle_space (mkCar 1 (1/10) 0 0)) (get_vehicle_space (mkCar 2 (2/10) 0 0)) ∧
    calculate_traffic_jam_length fxTwoFar <
      get_vehicle_space (mkCar 1 (1/10) 0 0) + get_vehicle_space (mkCar 2 (2/10) 0 0) :=
  (traffic_jam_length_segments fxTwoFar).2.2 (mkCar 1 (1/10) 0 0) (mkCar 2 (2/10) 0 0)
    (by norm_num [slowVehicles, fxTwoFar, fxEmpty, mkCar, SLOW_TRAFFIC_THRESHOLD])
    (Or.inl (by norm_num [mkCar, JAM_THRESHOLD_DISTANCE]))

/-! ## Claim C1 -/

theorem generate_vehicle_no_lanes (s : SimState) (d : VehicleDraw)
    (hn : s.num_lanes = 0) (hb : s.has_bus_lane = false) :
    generate_vehicle s d =
      Except.error "no regular lanes for a vehicle that cannot use the bus lane" := by
  unfold generate_vehicle
  simp [hn, hb, Except.map]

theorem genLoop_no_lanes (maxCap : ℕ) (s : SimState) (draws : List VehicleDraw)
    (hn : s.num_lanes = 0) (hb : s.has_bus_lane = false) :
    genLoop maxCap s draws = s := by
  cases draws with
  | nil => rfl
  | cons d rest =>
      simp only [genLoop, generate_vehicle_no_lanes s d hn hb]
      split <;> rfl

theorem process_vehicle_queue_of_empty (s : SimState) (maxCap : ℕ)
    (hq : s.vehicle_queue = []) : process_vehicle_queue s maxCap = s := by
  unfold process_vehicle_queue
  rw [hq]
  show { s with vehicle_queue := [] } = s
  rw [← hq]

/-- C1 amended: over a layout with zero regular lanes and no priority
lane, construction succeeds without validation and every generation
attempt raises the configuration ValueError, but step() catches it:
the step completes normally — the run continues with the clock
advanced — and the would-be arrivals are dropped, never admitted or
enqueued. -/
theorem no_regular_lane_error_swallowed (s : SimState) (draws : List VehicleDraw)
    (d : VehicleDraw) (hn : s.num_lanes = 0) (hb : s.has_bus_lane = false)
    (hv : s.vehicles = []) (hq : s.vehicle_queue = []) :
    (∃ msg, generate_vehicle s d = Except.error msg) ∧
    (step s draws).vehicles = [] ∧
    (step s draws).vehicle_queue = [] ∧
    (step s draws).completed_vehicles = s.completed_vehicles ∧
    (step s draws).current_time = s.current_time + s.params.time_step := by
  refine ⟨⟨_, generate_vehicle_no_lanes s d hn hb⟩, ?_⟩
  simp only [step]
  rw [process_vehicle_queue_of_empty _ _ hq, genLoop_no_lanes _ _ _ hn hb]
  refine ⟨?_, ?_, ?_, ?_⟩ <;>
    simp [update_traffic_lights, move_vehicles, moveProcessed, moveLoop,
      collect_simulation_data, hv, hq]

/-- C1 amended witness: the zero-lane engine's first step with one
drawn arrival raises and swallows the generation error, drops the
arrival, and advances the clock. -/
theorem no_regular_lane_error_swallowed_witness :
    (∃ msg, generate_vehicle fxZeroLanes fxDraw = Except.error msg) ∧
    (step fxZeroLanes [fxDraw]).vehicles = [] ∧
    (step fxZeroLanes [fxDraw]).vehicle_queue = [] ∧
    (step fxZeroLanes [fxDraw]).completed_vehicles = fxZeroLanes.completed_vehicles ∧
    (step fxZeroLanes [fxDraw]).current_time =
      fxZeroLanes.current_time + fxZeroLanes.params.time_step :=
  no_regular_lane_error_swallowed fxZeroLanes [fxDraw] fxDraw rfl rfl rfl rfl

/-- C1 counterexample: on the zero-lane layout the engine constructor
raises nothing, the first generation attempt does raise the
configuration error, yet step() swallows it: the step returns normally
with the arrival dropped (nothing admitted, nothing queued) and the
clock advanced — the run is not aborted. -/
theorem zero_lane_step_continues :
    generate_vehicle fxZeroLanes fxDraw =
      Except.error "no regular lanes for a vehicle that cannot use the bus lane" ∧
    (step fxZeroLanes [fxDraw]).vehicles = [] ∧
    (step fxZeroLanes [fxDraw]).vehicle_queue = [] ∧
    (step fxZeroLanes [fxDraw]).completed_vehicles = [] ∧
    (step fxZeroLanes [fxDraw]).current_time = 1 := by
  have hn : fxZeroLanes.num_lanes = 0 := rfl
  have hb : fxZeroLanes.has_bus_lane = false := rfl
  have hgen := generate_vehicle_no_lanes fxZeroLanes fxDraw hn hb
  refine ⟨hgen, ?_, ?_, ?_, ?_⟩ <;>
    · simp only [step]
      rw [process_vehicle_queue_of_empty _ _ rfl, genLoop_no_lanes _ _ _ hn hb]
      simp [update_traffic_lights, move_vehicles, moveProcessed, moveLoop,
        collect_simulation_data, fxZeroLanes, mkSimulation, fxCfgZero, fxParams, setupLights]

/-! ## Claim C8 -/

theorem step_empty_no_arrivals (s : SimState) (hv : s.vehicles = [])
    (hq : s.vehicle_queue = []) :
    (step s []).vehicles = [] ∧ (step s []).vehicle_queue = [] ∧
    (step s []).completed_vehicles = s.completed_vehicles ∧
    (step s []).jam_lengths = s.jam_lengths ++ [0] := by
  simp only [step]
  rw [process_vehicle_queue_of_empty _ _ hq]
  refine ⟨?_, ?_, ?_, ?_⟩ <;>
    simp [genLoop, update_traffic_lights, move_vehicles, moveProcessed, moveLoop,
      collect_simulation_data, calculate_traffic_jam_length, slowVehicles,
      sortByPosition, hv, hq]

/-- C8: with demand-intensity range (0, 0) the Poisson arrival rate is
0, so every drawn arrival count is 0: after any number of step() calls
no vehicle is ever admitted or enqueued, the completed list stays
empty, and every recorded congestion length is 0. -/
theorem zero_demand_run (params : SimulationParameters) (cfg : InfrastructureConfig)
    (draws : ℕ → List VehicleDraw) (n : ℕ)
    (hrange : params.traffic_intensity_range = (0, 0))
    (hsup : ∀ i, poissonSupport (trafficRate params) (draws i).length) :
    (iterateSteps draws (mkSimulation params cfg) n).vehicles = [] ∧
    (iterateSteps draws (mkSimulation params cfg) n).completed_vehicles = [] ∧
    (iterateSteps draws (mkSimulation params cfg) n).vehicle_queue = [] ∧
    (∀ x ∈ (iterateSteps draws (mkSimulation params cfg) n).jam_lengths, x = 0) := by
  have hrate : trafficRate params = 0 := by
    norm_num [trafficRate, hrange, SECONDS_PER_HOUR]
  have hdraws : ∀ i, draws i = [] := by
    intro i
    rcases hsup i with h | h
    · rw [hrate] at h
      norm_num at h
    · exact List.length_eq_zero.mp h
  induction n with
  | zero => simp [iterateSteps, mkSimulation]
  | succ n ih =>
      obtain ⟨ihv, ihc, ihq, ihj⟩ := ih
      rw [iterateSteps, hdraws n]
      obtain ⟨h1, h2, h3, h4⟩ := step_empty_no_arrivals _ ihv ihq
      refine ⟨h1, by rw [h3, ihc], h2, ?_⟩
      intro x hx
      rw [h4] at hx
      rcases List.mem_append.mp hx with hx | hx
      · exact ihj x hx
      · simpa using hx

/-- C8 witness: a three-step run with zero demand over a plain
two-lane layout keeps every collection empty and records only zero
congestion lengths. -/
theorem zero_demand_run_witness :
    (iterateSteps (fun _ => []) (mkSimulation fxZeroDemandParams fxCfgPlain) 3).vehicles = [] ∧
    (iterateSteps (fun _ => []) (mkSimulation fxZeroDemandParams fxCfgPlain) 3).completed_vehicles = [] ∧
    (iterateSteps (fun _ => []) (mkSimulation fxZeroDemandParams fxCfgPlain) 3).vehicle_queue = [] ∧
    (∀ x ∈ (iterateSteps (fun _ => []) (mkSimulation fxZeroDemandParams fxCfgPlain) 3).jam_lengths,
      x = 0) :=
  zero_demand_run fxZeroDemandParams fxCfgPlain (fun _ => []) 3 rfl (fun _ => Or.inr rfl)

/-! ## Claim C7 -/

theorem moveOne_preserves (lights : List TrafficLight) (visible : List Vehicle)
    (dt t roadLen : ℚ) (v : Vehicle) :
    (moveOne lights visible dt t roadLen v).1.id = v.id ∧
    (moveOne lights visible dt t roadLen v).1.entry_time = v.entry_time ∧
    (moveOne lights visible dt t roadLen v).1.will_turn = v.will_turn ∧
    (moveOne lights visible dt t roadLen v).1.turn_position = v.turn_position := by
  simp only [moveOne]
  split_ifs <;> exact ⟨rfl, rfl, rfl, rfl⟩

theorem moveOne_position (lights : List TrafficLight) (visible : List Vehicle)
    (dt t roadLen : ℚ) (v : Vehicle) :
    (moveOne lights visible dt t roadLen v).1.current_position =
      v.current_position + calcSpeedAux lights visible v * (dt / SECONDS_PER_HOUR) := by
  simp only [moveOne]
  split_ifs <;> rfl

theorem moveOne_turned (lights : List TrafficLight) (visible : List Vehicle)
    (dt t roadLen : ℚ) (v : Vehicle)
    (h : v.will_turn = true ∧ truthyTurnPosition v.turn_position = true ∧
      v.turn_position.getD 0 ≤
        v.current_position + calcSpeedAux lights visible v * (dt / SECONDS_PER_HOUR)) :
    (moveOne lights visible dt t roadLen v).2 = some CompKind.turned ∧
    (moveOne lights visible dt t roadLen v).1.travel_time = t - v.entry_time := by
  simp only [moveOne]
  rw [if_pos h]
  exact ⟨rfl, rfl⟩

theorem moveOne_exited (lights : List TrafficLight) (visible : List Vehicle)
    (dt t roadLen : ℚ) (v : Vehicle)
    (h1 : ¬(v.will_turn = true ∧ truthyTurnPosition v.turn_position = true ∧
      v.turn_position.getD 0 ≤
        v.current_position + calcSpeedAux lights visible v * (dt / SECONDS_PER_HOUR)))
    (h2 : roadLen ≤
      v.current_position + calcSpeedAux lights visible v * (dt / SECONDS_PER_HOUR)) :
    (moveOne lights visible dt t roadLen v).2 = some CompKind.exited ∧
    (moveOne lights visible dt t roadLen v).1.travel_time = t - v.entry_time := by
  simp only [moveOne]
  rw [if_neg h1, if_pos h2]
  exact ⟨rfl, rfl⟩

theorem moveOne_travel_of_none (lights : List TrafficLight) (visible : List Vehicle)
    (dt t roadLen : ℚ) (v : Vehicle)
    (h : (moveOne lights visible dt t roadLen v).2 = none) :
    (moveOne lights visible dt t roadLen v).1.travel_time = v.travel_time := by
  simp only [moveOne] at h ⊢
  split_ifs at h ⊢ <;> first | rfl | simp at h

theorem moveLoop_mem (lights : List TrafficLight) (dt t roadLen : ℚ) :
    ∀ (rest : List Vehicle) (done : List (Vehicle × Option CompKind))
      (p : Vehicle × Option CompKind),
      p ∈ moveLoop lights dt t roadLen done rest →
      p ∈ done ∨ ∃ v ∈ rest, ∃ visible, p = moveOne lights visible dt t roadLen v := by
  intro rest
  induction rest with
  | nil =>
      intro done p hp
      exact Or.inl hp
  | cons v vs ih =>
      intro done p hp
      rw [moveLoop] at hp
      rcases ih _ p hp with hd | ⟨w, hw, vis, hpw⟩
      · rcases List.mem_append.mp hd with h | h
        · exact Or.inl h
        · right
          exact ⟨v, List.mem_cons_self v vs,
            done.map Prod.fst ++ v :: vs, List.mem_singleton.mp h⟩
      · right
        exact ⟨w, List.mem_cons_of_mem v hw, vis, hpw⟩

theorem moveLoop_ids (lights : List TrafficLight) (dt t roadLen : ℚ) :
    ∀ (rest : List Vehicle) (done : List (Vehicle × Option CompKind)),
      (moveLoop lights dt t roadLen done rest).map (fun p => p.1.id) =
        done.map (fun p => p.1.id) ++ rest.map Vehicle.id := by
  intro rest
  induction rest with
  | nil =>
      intro done
      simp [moveLoop]
  | cons v vs ih =>
      intro done
      rw [moveLoop, ih]
      simp [(moveOne_preserves lights (done.map Prod.fst ++ v :: vs) dt t roadLen v).1]

/-- C7 counterexample: a vehicle flagged to divert with diversion
position 0.0 has reached (indeed passed) that position, yet the motion
update does not complete it as diverted — Python's truthiness test on
the position treats 0.0 like None, so the vehicle stays active and
would only ever complete by exiting at the corridor end. -/
theorem zero_turn_position_not_diverted :
    fxZeroTurnCar.will_turn = true ∧
    fxZeroTurnCar.turn_position = some 0 ∧
    fxZeroTurnCar.turn_position.getD 0 ≤ fxZeroTurnCar.current_position ∧
    (move_vehicles fxZeroTurnState).completed_vehicles = [] ∧
    (move_vehicles fxZeroTurnState).vehicles ≠ [] := by
  refine ⟨rfl, rfl, by norm_num [fxZeroTurnCar, mkCar], ?_, ?_⟩ <;>
    norm_num [move_vehicles, moveProcessed, moveLoop, moveOne, calcSpeedAux,
      stoppedByRedLight, vehiclesAhead, densityFactor, truthyTurnPosition,
      fxZeroTurnState, fxZeroTurnCar, fxEmpty, fxParams, mkCar, BASE_VEHICLE_SPEED,
      MIN_DENSITY_FACTOR, DENSITY_REDUCTION_RATE, SECONDS_PER_HOUR, DETECTION_DISTANCE]

/-- C7 amended: in the motion update, a vehicle flagged to divert whose
post-update position has reached its (set, nonzero) diversion position
completes as diverted, with this check taking priority over the
corridor-end check; otherwise reaching the corridor end completes it
as exited.  A completing vehicle gets travel_time stamped exactly once
as current time − entry time, which is non-negative, and moves from
the active list to the completed list; a non-completing vehicle stays
active with its travel_time untouched. -/
theorem vehicle_completion (s : SimState)
    (hids : (s.vehicles.map Vehicle.id).Nodup)
    (hturn : ∀ v ∈ s.vehicles, v.will_turn = true → truthyTurnPosition v.turn_position = true)
    (hent : ∀ v ∈ s.vehicles, v.entry_time ≤ s.current_time) :
    ∀ p ∈ moveProcessed s,
      ((p.1.will_turn = true ∧ p.1.turn_position.getD 0 ≤ p.1.current_position) →
        p.2 = some CompKind.turned) ∧
      (¬(p.1.will_turn = true ∧ p.1.turn_position.getD 0 ≤ p.1.current_position) →
        s.params.road_length ≤ p.1.current_position → p.2 = some CompKind.exited) ∧
      (p.2 ≠ none →
        p.1.travel_time = s.current_time - p.1.entry_time ∧ 0 ≤ p.1.travel_time ∧
        p.1 ∈ (move_vehicles s).completed_vehicles ∧
        p.1 ∉ (move_vehicles s).vehicles) ∧
      (p.2 = none →
        p.1 ∈ (move_vehicles s).vehicles ∧
        ∃ v ∈ s.vehicles, p.1.travel_time = v.travel_time ∧ p.1.entry_time = v.entry_time) := by
  intro p hp
  have hp' := hp
  rcases moveLoop_mem s.traffic_lights s.params.time_step s.current_time s.params.road_length
      s.vehicles [] p hp with hfalse | ⟨v, hv, vis, hpv⟩
  · simp at hfalse
  obtain ⟨hid, hentry, hwill, htp⟩ :=
    moveOne_preserves s.traffic_lights vis s.params.time_step s.current_time
      s.params.road_length v
  rw [← hpv] at hid hentry hwill htp
  have hpos := moveOne_position s.traffic_lights vis s.params.time_step s.current_time
      s.params.road_length v
  rw [← hpv] at hpos
  have hprocessed_ids : (moveProcessed s).map (fun p => p.1.id) = s.vehicles.map Vehicle.id := by
    have := moveLoop_ids s.traffic_lights s.params.time_step s.current_time
      s.params.road_length s.vehicles []
    simpa [moveProcessed] using this
  have hnodup : ((moveProcessed s).map (fun p => p.1.id)).Nodup := by
    rw [hprocessed_ids]; exact hids
  have hmem_completed : p.2 ≠ none → p.1 ∈ (move_vehicles s).completed_vehicles := by
    intro hne
    have : p ∈ (moveProcessed s).filter fun q => !q.2.isNone := by
      refine List.mem_filter.mpr ⟨hp', ?_⟩
      rcases h2 : p.2 with _ | k
      · exact absurd h2 hne
      · simp
    unfold move_vehicles
    exact List.mem_append.mpr (Or.inr (List.mem_map.mpr ⟨p, this, rfl⟩))
  have hnot_active : p.2 ≠ none → p.1 ∉ (move_vehicles s).vehicles := by
    intro hne hmem
    unfold move_vehicles at hmem
    rcases List.mem_map.mp hmem with ⟨q, hqf, hq1⟩
    have hqmem := (List.mem_filter.mp hqf).1
    have hqnone : q.2 = none := by
      have := (List.mem_filter.mp hqf).2
      rcases h2 : q.2 with _ | k
      · rfl
      · rw [h2] at this; simp at this
    have : q = p :=
      List.inj_on_of_nodup_map hnodup hqmem hp' (by rw [hq1, hid])
    rw [this] at hqnone
    exact hne hqnone
  have hmem_active : p.2 = none → p.1 ∈ (move_vehicles s).vehicles := by
    intro hnone
    unfold move_vehicles
    refine List.mem_map.mpr ⟨p, ?_, rfl⟩
    exact List.mem_filter.mpr ⟨hp', by rw [hnone]; rfl⟩
  refine ⟨?_, ?_, ?_, ?_⟩
  · intro hcond
    have hwv : v.will_turn = true := by
      rw [← hwill]
      exact hcond.1
    have htr : truthyTurnPosition v.turn_position = true := hturn v hv hwv
    have hc2 := hcond.2
    rw [htp, hpos] at hc2
    have := moveOne_turned s.traffic_lights vis s.params.time_step s.current_time
      s.params.road_length v ⟨hwv, htr, hc2⟩
    rw [hpv]
    exact this.1
  · intro hncond hroad
    have h1 : ¬(v.will_turn = true ∧ truthyTurnPosition v.turn_position = true ∧
        v.turn_position.getD 0 ≤ v.current_position +
          calcSpeedAux s.traffic_lights vis v * (s.params.time_step / SECONDS_PER_HOUR)) := by
      rintro ⟨ha, _, hc⟩
      exact hncond ⟨by rw [hwill]; exact ha, by rw [htp, hpos]; exact hc⟩
    rw [hpos] at hroad
    have := moveOne_exited s.traffic_lights vis s.params.time_step s.current_time
      s.params.road_length v h1 hroad
    rw [hpv]
    exact this.1
  · intro hne
    have htt : p.1.travel_time = s.current_time - v.entry_time := by
      rcases h2 : p.2 with _ | k
      · exact absurd h2 hne
      rw [hpv] at h2 ⊢
      simp only [moveOne] at h2 ⊢
      split_ifs at h2 ⊢ <;> first | rfl | simp at h2
    refine ⟨by rw [htt, hentry], ?_, hmem_completed hne, hnot_active hne⟩
    rw [htt]
    have := hent v hv
    linarith
  · intro hnone
    refine ⟨hmem_active hnone, v, hv, ?_, hentry⟩
    rw [hpv] at hnone ⊢
    exact moveOne_travel_of_none _ _ _ _ _ _ hnone

/-- C7 witness: in fxTurnState the diverting car completes with
travel_time 3 = 5 − 2 (non-negative), landing in the completed list
and leaving the active list. -/
theorem vehicle_completion_witness :
    fxTurnDone.travel_time = fxTurnState.current_time - fxTurnDone.entry_time ∧
    0 ≤ fxTurnDone.travel_time ∧
    fxTurnDone ∈ (move_vehicles fxTurnState).completed_vehicles ∧
    fxTurnDone ∉ (move_vehicles fxTurnState).vehicles := by
  have hmem : (fxTurnDone, some CompKind.turned) ∈ moveProcessed fxTurnState := by
    norm_num [moveProcessed, moveLoop, moveOne, calcSpeedAux, stoppedByRedLight,
      vehiclesAhead, densityFactor, truthyTurnPosition, fxTurnState, fxTurnCar,
      fxTurnDone, fxEmpty, fxParams, mkCar, BASE_VEHICLE_SPEED, MIN_DENSITY_FACTOR,
      DENSITY_REDUCTION_RATE, SECONDS_PER_HOUR, DETECTION_DISTANCE]
  have h := vehicle_completion fxTurnState
    (by simp [fxTurnState, fxEmpty, fxTurnCar, mkCar])
    (by
      intro v hv hw
      simp only [fxTurnState, fxEmpty] at hv
      rcases List.mem_singleton.mp hv with rfl
      simp [truthyTurnPosition, fxTurnCar, mkCar])
    (by
      intro v hv
      simp only [fxTurnState, fxEmpty] at hv
      rcases List.mem_singleton.mp hv with rfl
      norm_num [fxTurnCar, mkCar, fxTurnState, fxEmpty])
    (fxTurnDone, some CompKind.turned) hmem
  exact h.2.2.1 (by simp)

end BusLane
